import Mathlib

/-!
Verification development for the biblioPK repository (src/app.py, src/app2.py).

The two scripts share a three step pipeline: build a PubMed query, search for
article identifiers, fetch per-article summary records, then score, classify
and sort them.  This file gives a shallow embedding of the pure core of that
pipeline.  Python strings are modelled as Lean `String` / `List Char`;
Python dictionaries holding string values are association lists; code that can
raise an exception returns `Option` or `Except`.  Python `str.lower` is
modelled with `Char.toLower`, which agrees with Python on ASCII letters and
leaves every other character unchanged (all keyword lists in the sources are
ASCII apart from accented lowercase letters, which both sides leave as they
are).
-/

/-- Tests whether `needle` is a prefix of `hay`, character by character. -/
def hasPrefixCh : List Char → List Char → Bool
  | [], _ => true
  | _ :: _, [] => false
  | c :: cs, d :: ds => c == d && hasPrefixCh cs ds

/-- Python `needle in hay` for strings: substring containment.  The empty
needle is contained in every string, as in Python. -/
def pyIn (needle : List Char) : List Char → Bool
  | [] => hasPrefixCh needle []
  | c :: t => hasPrefixCh needle (c :: t) || pyIn needle t

/-- Scanning loop of Python `hay.count(needle)` for a nonempty `needle`:
left to right, and after a match the next `needle.length - 1` characters are
skipped, so matches never overlap.  `skip` is the number of positions still to
be skipped after the character just consumed. -/
def countLoop (needle : List Char) : Nat → List Char → Nat
  | _, [] => 0
  | skip + 1, _ :: t => countLoop needle skip t
  | 0, c :: t =>
    if hasPrefixCh needle (c :: t) then countLoop needle (needle.length - 1) t + 1
    else countLoop needle 0 t

/-- Python `hay.count(needle)`: number of non-overlapping occurrences, scanned
left to right.  For the empty needle Python returns `len(hay) + 1`. -/
def pyCount (hay needle : List Char) : Nat :=
  if needle.isEmpty then hay.length + 1 else countLoop needle 0 hay

/-- Number of positions of `hay` (including the end position) at which
`needle` occurs as a substring; overlapping occurrences are all counted.
This is the "number of (possibly overlapping) substring positions". -/
def countOverlap : List Char → List Char → Nat
  | [], needle => if hasPrefixCh needle [] then 1 else 0
  | c :: t, needle => (if hasPrefixCh needle (c :: t) then 1 else 0) + countOverlap t needle

/-- Python `s.lower()`, restricted to ASCII case mapping. -/
def pyLower (s : String) : String :=
  String.mk (s.data.map Char.toLower)

/-- Python `s.capitalize()`: first character uppercased, the rest lowercased. -/
def pyCapitalize (s : String) : String :=
  match s.data with
  | [] => ""
  | c :: t => String.mk (c.toUpper :: t.map Char.toLower)

/-- Helper of `pySplitWs`: accumulates the current word (reversed) while
scanning; whitespace closes the word.  Models Python `s.split()` with no
argument, which drops empty fragments. -/
def wordsAux : List Char → List Char → List (List Char)
  | acc, [] => if acc.isEmpty then [] else [acc.reverse]
  | acc, c :: t =>
    if c.isWhitespace then
      (if acc.isEmpty then wordsAux [] t else acc.reverse :: wordsAux [] t)
    else wordsAux (c :: acc) t

/-- Python `s.split()` (no separator): whitespace-run tokenisation. -/
def pySplitWs (s : String) : List String :=
  (wordsAux [] s.data).map String.mk

/-- Strips leading and trailing whitespace, as Python `int()` does before
parsing. -/
def stripWs (l : List Char) : List Char :=
  ((l.dropWhile Char.isWhitespace).reverse.dropWhile Char.isWhitespace).reverse

/-- Numeric value of a digit run. -/
def digitsToNat : List Char → Nat :=
  List.foldl (fun n c => 10 * n + (c.toNat - 48)) 0

/-- Python `int(s)` on a string: strips whitespace, allows one optional sign,
then requires a nonempty run of decimal digits; anything else raises
`ValueError`, modelled as `none`.  (Underscore digit grouping, accepted by
Python between digits, is not modelled; no input considered here uses it.) -/
def pyInt (l : List Char) : Option Int :=
  match stripWs l with
  | [] => none
  | '+' :: ds => if ds ≠ [] ∧ ds.all Char.isDigit then some (digitsToNat ds) else none
  | '-' :: ds => if ds ≠ [] ∧ ds.all Char.isDigit then some (-(digitsToNat ds : Int)) else none
  | ds => if ds.all Char.isDigit then some (digitsToNat ds) else none

/-- Python `sep.join(parts)`. -/
def joinSep (sep : String) : List String → String
  | [] => ""
  | [s] => s
  | s :: rest => s ++ sep ++ joinSep sep rest

/-- Insertion step of a stable sort: `x` is placed before the first element
`y` with `le x y`; the elements it passes over all have `le x y = false`. -/
def insB (le : α → α → Bool) (x : α) : List α → List α
  | [] => [x]
  | y :: ys => if le x y then x :: y :: ys else y :: insB le x ys

/-- Stable insertion sort.  For a total preorder `le` its output coincides
with the output of any stable sorting algorithm (CPython `sorted` / timsort,
numpy lexsort), so it is a faithful extensional model of both. -/
def sortB (le : α → α → Bool) : List α → List α
  | [] => []
  | x :: xs => insB le x (sortB le xs)

/-- A string-valued Python dictionary (the per-article summary record). -/
def Details : Type := List (String × String)

/-- Python `d.get(key, default)` on a string-valued dictionary. -/
def dget (d : Details) (key dflt : String) : String :=
  (List.lookup key d).getD dflt

/-- A JSON value, as produced by `response.json()`. -/
inductive JVal : Type
  | jstr (s : String)
  | jnum (n : Int)
  | jbool (b : Bool)
  | jnull
  | jarr (l : List JVal)
  | jobj (kvs : List (String × JVal))

/-- Python exceptions that the search code can raise. -/
inductive PyErr : Type
  | connectionError (msg : String)
  | jsonDecodeError
  | keyError (key : String)
  | attributeError
  | typeError
  | valueError
deriving DecidableEq

/-- Outcome of the external HTTP call `requests.get`: either the request
itself raises (connectivity failure), or a response arrives with an HTTP
status (`ok`) and a body that either is valid JSON (`some v`) or is not
(`none`, in which case `response.json()` raises `JSONDecodeError`). -/
inductive Transport : Type
  | connFail (msg : String)
  | response (ok : Bool) (body : Option JVal)

/-- Python `data.get(key, dflt)` on a JSON value: a lookup when `data` is an
object, an `AttributeError` otherwise. -/
def jget (v : JVal) (key : String) (dflt : JVal) : Except PyErr JVal :=
  match v with
  | .jobj kvs => .ok ((List.lookup key kvs).getD dflt)
  | _ => .error .attributeError

/-- Python `data[key]` on a JSON value: `KeyError` when the key is missing,
`TypeError` when `data` is not an object. -/
def jindex (v : JVal) (key : String) : Except PyErr JVal :=
  match v with
  | .jobj kvs =>
    match List.lookup key kvs with
    | some x => .ok x
    | none => .error (.keyError key)
  | _ => .error .typeError

namespace App1

/-- One article dictionary of app.py just before the relevance score is
added: the six fields built in `fetch_article_details`. -/
structure PreArticle : Type where
  titre : String
  date : String
  lien : String
  resume : String
  population : String
  journal : String
deriving DecidableEq

/-- An article dictionary of app.py after `"Score Pertinence"` is added. -/
structure Article : Type where
  pre : PreArticle
  score : Int
deriving DecidableEq

/-- Population vocabulary of `extract_population` (app.py lines 53). -/
def populations : List String := ["mice", "rats", "humans", "children", "adults"]

/-- app.py `extract_population` (lines 49-58): first population keyword found
among the whitespace tokens of the lowercased title, capitalised; fallback
"Non spécifié". -/
def extract_population (title : String) : String :=
  match populations.find? (fun p => (pySplitWs (pyLower title)).contains p) with
  | some p => pyCapitalize p
  | none => "Non spécifié"

/-- Keyword component of app.py `calculate_relevance_score` (line 71): the sum
over the query keywords of the Python substring counts in the lowered title
and the lowered summary. -/
def keywordScore (title summary : List Char) (kws : List String) : Nat :=
  (kws.map (fun k => pyCount title (pyLower k).data + pyCount summary (pyLower k).data)).sum

/-- app.py `calculate_relevance_score` (lines 60-81).  The date contributes
`max 0 (2025 - year)` as a penalty when the date field contains a space, where
`year` is `int(date.split(" ")[0])`; that `int` call raises `ValueError`
(modelled as `none`) when the token before the first space is not an integer
literal.  When the date has no space the penalty is zero. -/
def calculate_relevance_score (a : PreArticle) (kws : List String) : Option Int :=
  let title := pyLower a.titre
  let summary := pyLower a.resume
  let date := a.date
  let kscore : Nat := keywordScore title.data summary.data kws
  if pyIn [' '] date.data then
    match pyInt (date.data.takeWhile (fun c => c ≠ ' ')) with
    | none => none
    | some year => some ((kscore : Int) - max 0 (2025 - year))
  else
    some (kscore : Int)

/-- The article dictionary built for one `(id, details)` pair of the decoded
`result` mapping (app.py lines 36-43).  Note that both `"Titre"` and
`"Résumé"` are filled from the same `"title"` key of the response. -/
def preArticle (id : String) (d : Details) : PreArticle :=
  { titre := dget d "title" "Non spécifié"
    date := dget d "pubdate" "Non spécifié"
    lien := "https://pubmed.ncbi.nlm.nih.gov/" ++ id ++ "/"
    resume := dget d "title" "Non spécifié"
    population := extract_population (dget d "title" "")
    journal := dget d "source" "Non spécifié" }

/-- Loop body of app.py `fetch_article_details` (lines 33-46): iterate over
the `result` items in order, skip the `"uids"` key, build the dictionary and
attach the relevance score.  A `ValueError` raised by the scorer aborts the
whole loop (`none`). -/
def build_loop (kws : List String) : List (String × Details) → Option (List Article)
  | [] => some []
  | (id, d) :: rest =>
    if id == "uids" then build_loop kws rest
    else
      match calculate_relevance_score (preArticle id d) kws with
      | none => none
      | some sc => (build_loop kws rest).map (fun arts => ⟨preArticle id d, sc⟩ :: arts)

/-- Comparison used by `sorted(articles, key=lambda x: x["Score Pertinence"],
reverse=True)`: `a` may be placed before `b` when its score is at least
`b`'s; CPython sorted is stable, which `sortB` with this relation models. -/
def le1 (a b : Article) : Bool := b.score ≤ a.score

/-- app.py `fetch_article_details` (lines 20-47) after decoding: builds the
records from the `result` items and returns them sorted by descending
relevance score with a stable sort. -/
def fetch_article_details (result : List (String × Details)) (kws : List String) :
    Option (List Article) :=
  (build_loop kws result).map (sortB le1)

/-- app.py `search_pubmed` (lines 5-18): no exception handling at all.  A
connectivity failure propagates the `requests` exception; a non-JSON body
propagates `JSONDecodeError`; the HTTP status is never checked; the decoded
body is indexed with `["esearchresult"]["idlist"]`, which can raise
`KeyError` or `TypeError`. -/
def search_pubmed (t : Transport) : Except PyErr JVal :=
  match t with
  | .connFail m => .error (.connectionError m)
  | .response _ none => .error .jsonDecodeError
  | .response _ (some v) => do
    let e ← jindex v "esearchresult"
    jindex e "idlist"

end App1

namespace App2

/-- Ceiling of `n * p / 100` on naturals.  For the operand sizes that occur
here (`n * p` far below `2^50`) this coincides with Python
`math.ceil(n * p / 100)` computed through float division, because the exact
quotient is a rational with denominator dividing 100 and float rounding never
moves it across an integer. -/
def fractionCount (n p : Nat) : Nat := (n * p + 99) / 100

/-- app2.py `construct_query_with_keywords` (lines 7-21): the user keywords
are AND-joined, the first `ceil(len * 33 / 100)` pharmacometry keywords are
OR-joined, and the two groups are AND-ed. -/
def construct_query_with_keywords (user_keywords pharmacometry_keywords : List String) :
    String :=
  let user_query := joinSep " AND " user_keywords
  let min_keywords := fractionCount pharmacometry_keywords.length 33
  let pharmacometry_query := joinSep " OR " (pharmacometry_keywords.take min_keywords)
  "(" ++ user_query ++ ") AND (" ++ pharmacometry_query ++ ")"

/-- The fixed pharmacometry vocabulary of app2.py (lines 140-147). -/
def pharmacometry_keywords : List String :=
  ["PK model", "bicompartimental", "monocompartimental",
   "pharmacokinetics", "pharmacodynamics", "estimated parameters",
   "clearance", "absorption", "distribution volume", "central compartment",
   "Monolix", "NONMEM", "Mrgsolve", "Lixoft", "population modeling",
   "parameter variability", "elimination rate", "half-life",
   "bioavailability", "rate of absorption", "compartment volume"]

/-- Diagnostic shown by app2.py when the response body is not JSON. -/
def jsonErrMsg : String :=
  "La réponse de l\x27API PubMed n\x27est pas au format JSON. Vérifiez votre requête."

/-- Diagnostic shown by app2.py when the request raises; the argument models
`str(e)`. -/
def reqErrMsg (e : String) : String :=
  "Erreur lors de la requête à l\x27API PubMed : " ++ e

/-- app2.py `search_pubmed` (lines 23-45): `raise_for_status` turns a bad
HTTP status into an `HTTPError` (a `RequestException`, whose `str(e)` is
abstracted here as the constant "HTTPError"); `JSONDecodeError` and
`RequestException` are caught, reported with `st.error`, and turned into an
empty identifier list.  On success the identifiers are read with
`data.get("esearchresult", {}).get("idlist", [])`; those `get` calls can
still raise `AttributeError` when the decoded body is not an object, which is
not caught.  The result pairs the returned value with the list of diagnostics
emitted. -/
def search_pubmed (t : Transport) : Except PyErr (JVal × List String) :=
  match t with
  | .connFail m => .ok (.jarr [], [reqErrMsg m])
  | .response false _ => .ok (.jarr [], [reqErrMsg "HTTPError"])
  | .response true none => .ok (.jarr [], [jsonErrMsg])
  | .response true (some v) => do
    let e ← jget v "esearchresult" (.jobj [])
    let il ← jget e "idlist" (.jarr [])
    .ok (il, [])

/-- The PK model vocabulary shared by `contains_pk_model` and
`model_keyword_score` (app2.py lines 51-54 and 64-67). -/
def pk_model_keywords : List String :=
  ["pk model", "population pk", "nonlinear mixed effects",
   "one-compartment", "two-compartment", "multi-compartment", "compartmental", "pk"]

/-- Loop of app2.py `contains_pk_model`: true when some keyword, lowercased,
occurs in the (already lowercased) text. -/
def containsAnyKw (hay : List Char) (kws : List String) : Bool :=
  kws.any (fun k => pyIn (pyLower k).data hay)

/-- Loop of app2.py `model_keyword_score`: sum of the Python substring counts
of the lowercased keywords in the (already lowercased) text. -/
def sumCountKw (hay : List Char) (kws : List String) : Nat :=
  (kws.map (fun k => pyCount hay (pyLower k).data)).sum

/-- app2.py `contains_pk_model` (lines 47-58). -/
def contains_pk_model (text : String) : Bool :=
  containsAnyKw (pyLower text).data pk_model_keywords

/-- app2.py `model_keyword_score` (lines 60-72). -/
def model_keyword_score (text : String) : Nat :=
  sumCountKw (pyLower text).data pk_model_keywords

/-- The ordered specific model phrases of `determine_model_type` (app2.py
line 81).  Note `"avec Tlag"` contains an uppercase letter while the text it
is searched in is lowercased, exactly as in the source. -/
def model_types : List String :=
  ["mono-compartimental", "bi-compartimental", "avec Tlag", "modèle de transit"]

/-- The `for mt in model_types` loop of `determine_model_type`: first phrase
contained in the combined text, scanned in list order. -/
def findModelType (combined : List Char) : List String → Option String
  | [] => none
  | mt :: rest => if pyIn mt.data combined then some mt else findModelType combined rest

/-- app2.py `determine_model_type` (lines 74-89): first matching specific
phrase; otherwise "Modèle PK" when "pk" occurs; otherwise "Non spécifié". -/
def determine_model_type (title summary : String) : String :=
  let combined := (pyLower (title ++ " " ++ summary)).data
  match findModelType combined model_types with
  | some mt => mt
  | none => if pyIn "pk".data combined then "Modèle PK" else "Non spécifié"

/-- Statement of the classifier contract in the words of the specification:
the result is the first phrase of the priority list that occurs in the
lowercased combined text, the generic label exactly when no specific phrase
matches but the token "pk" occurs, and the fallback otherwise.  Written
independently of the loop above, to be compared with it. -/
def modelTypeSpec (title summary : String) : String :=
  let combined := (pyLower (title ++ " " ++ summary)).data
  (model_types.find? (fun mt => pyIn mt.data combined)).getD
    (if pyIn "pk".data combined then "Modèle PK" else "Non spécifié")

/-- One article dictionary of app2.py `fetch_article_details` (lines 114-123). -/
structure Article : Type where
  journal : String
  date : String
  titre : String
  lien : String
  resume : String
  typeModele : String
  contientPK : String
  score : Nat
deriving DecidableEq

/-- The dictionary built for one `(id, details)` pair (app2.py lines 110-123):
the summary is the title, and the classifier and the two PK columns are
computed from `f"{title} {summary}"`. -/
def mkArticle (id : String) (d : Details) : Article :=
  let title := dget d "title" "Non spécifié"
  let summary := title
  { journal := dget d "source" "Non spécifié"
    date := dget d "pubdate" "Non spécifié"
    titre := title
    lien := "https://pubmed.ncbi.nlm.nih.gov/" ++ id ++ "/"
    resume := summary
    typeModele := determine_model_type title summary
    contientPK := if contains_pk_model (title ++ " " ++ summary) then "Oui" else "Non"
    score := model_keyword_score (title ++ " " ++ summary) }

/-- Loop of app2.py `fetch_article_details` over the decoded `result` items
(lines 107-124): skip the `"uids"` key, build the record, keep order. -/
def articles_from_result (result : List (String × Details)) : List Article :=
  result.filterMap (fun p => if p.1 == "uids" then none else some (mkArticle p.1 p.2))

/-- The derived `"Flag PK"` column (app2.py line 169):
`map({"Oui": 0, "Non": 1})`. -/
def flagPK (a : Article) : Nat := if a.contientPK == "Oui" then 0 else 1

/-- Comparison realised by `df.sort_values(by=["Flag PK", "Score modèle PK"],
ascending=[True, False])` (app2.py line 170): ascending flag first, then
descending score; pandas uses a stable lexicographic sort for a multi-column
key. -/
def le2 (a b : Article) : Bool :=
  flagPK a < flagPK b || (flagPK a == flagPK b && b.score ≤ a.score)

/-- app2.py line 170: the stable two-key sort of the article rows. -/
def sort_values (l : List Article) : List Article := sortB le2 l

end App2

/-- Modelled from the spec: the general `FRACTION(p)` inclusion policy of the
Query Builder (spec 4.1).  The source only instantiates `p = 33`, inside
`App2.construct_query_with_keywords`; the spec states the policy for any
percentage `p`, selecting the first `ceil(len(optional_terms) * p / 100)`
optional terms. -/
def selectFraction (p : Nat) (optional_terms : List String) : List String :=
  optional_terms.take (App2.fractionCount optional_terms.length p)

/-- Modelled from the spec: the `ALL` inclusion policy uses every optional
term. -/
def selectAll (optional_terms : List String) : List String := optional_terms

/-! Helper lemmas about the string primitives. -/

theorem hasPrefixCh_append (n s t : List Char) (h : hasPrefixCh n s = true) :
    hasPrefixCh n (s ++ t) = true := by
  induction n generalizing s with
  | nil => simp [hasPrefixCh]
  | cons c cs ih =>
    cases s with
    | nil => simp [hasPrefixCh] at h
    | cons d ds =>
      simp only [hasPrefixCh, Bool.and_eq_true] at h
      simp only [List.cons_append, hasPrefixCh, Bool.and_eq_true]
      exact ⟨h.1, ih ds h.2⟩

theorem hasPrefixCh_refl (l : List Char) : hasPrefixCh l l = true := by
  induction l with
  | nil => rfl
  | cons c cs ih => simp [hasPrefixCh, ih]

theorem pyIn_nil_needle (l : List Char) : pyIn [] l = true := by
  cases l <;> simp [pyIn, hasPrefixCh]

theorem pyIn_append_left (n a b : List Char) (h : pyIn n a = true) :
    pyIn n (a ++ b) = true := by
  induction a with
  | nil =>
    simp only [pyIn] at h
    cases n with
    | nil => exact pyIn_nil_needle b
    | cons c cs => simp [hasPrefixCh] at h
  | cons x xs ih =>
    simp only [pyIn, Bool.or_eq_true] at h
    simp only [List.cons_append, pyIn, Bool.or_eq_true]
    cases h with
    | inl h => exact Or.inl (hasPrefixCh_append n (x :: xs) b h)
    | inr h => exact Or.inr (ih h)

theorem pyIn_append_right (n a b : List Char) (h : pyIn n b = true) :
    pyIn n (a ++ b) = true := by
  induction a with
  | nil => simpa using h
  | cons x xs ih =>
    simp only [List.cons_append, pyIn, Bool.or_eq_true]
    exact Or.inr ih

theorem pyIn_refl (l : List Char) : pyIn l l = true := by
  cases l with
  | nil => exact pyIn_nil_needle []
  | cons c cs => simp [pyIn, hasPrefixCh_refl]

theorem sdata_append (a b : String) : (a ++ b).data = a.data ++ b.data := rfl

theorem pyIn_joinSep (sep : String) (l : List String) (k : String) (h : k ∈ l) :
    pyIn k.data (joinSep sep l).data = true := by
  induction l with
  | nil => cases h
  | cons x xs ih =>
    cases xs with
    | nil =>
      rcases List.mem_cons.mp h with rfl | h
      · exact pyIn_refl k.data
      · cases h
    | cons y rest =>
      rcases List.mem_cons.mp h with rfl | h
      · show pyIn k.data (k ++ sep ++ joinSep sep (y :: rest)).data = true
        rw [sdata_append, sdata_append]
        exact pyIn_append_left _ _ _ (pyIn_append_left _ _ _ (pyIn_refl k.data))
      · show pyIn k.data (x ++ sep ++ joinSep sep (y :: rest)).data = true
        rw [sdata_append]
        exact pyIn_append_right _ _ _ (ih h)

/-! Helper lemmas about occurrence counting. -/

theorem countLoop_le_countOverlap (needle hay : List Char) :
    ∀ skip, countLoop needle skip hay ≤ countOverlap hay needle := by
  induction hay with
  | nil => intro skip; simp [countLoop, countOverlap]
  | cons c t ih =>
    intro skip
    cases skip with
    | succ s =>
      calc countLoop needle (s + 1) (c :: t) = countLoop needle s t := rfl
        _ ≤ countOverlap t needle := ih s
        _ ≤ countOverlap (c :: t) needle := by
          simp only [countOverlap]; split <;> omega
    | zero =>
      by_cases hp : hasPrefixCh needle (c :: t) = true
      · have : countLoop needle 0 (c :: t)
            = countLoop needle (needle.length - 1) t + 1 := by
          simp [countLoop, hp]
        rw [this]
        have h2 : countOverlap (c :: t) needle = 1 + countOverlap t needle := by
          simp [countOverlap, hp]
        rw [h2]
        have := ih (needle.length - 1)
        omega
      · have hp2 : hasPrefixCh needle (c :: t) = false := by
          simpa using hp
        have : countLoop needle 0 (c :: t) = countLoop needle 0 t := by
          simp [countLoop, hp2]
        rw [this]
        have h2 : countOverlap (c :: t) needle = 0 + countOverlap t needle := by
          simp [countOverlap, hp2]
        rw [h2]
        have := ih 0
        omega

theorem countOverlap_nil_needle (hay : List Char) :
    countOverlap hay [] = hay.length + 1 := by
  induction hay with
  | nil => rfl
  | cons c t ih => simp [countOverlap, hasPrefixCh, ih]; omega

theorem pyCount_le_countOverlap (hay needle : List Char) :
    pyCount hay needle ≤ countOverlap hay needle := by
  by_cases h : needle.isEmpty = true
  · have : needle = [] := by cases needle <;> simp_all
    subst this
    simp [pyCount, countOverlap_nil_needle]
  · have h2 : needle.isEmpty = false := by simpa using h
    simp only [pyCount, h2, Bool.false_eq_true, if_false]
    exact countLoop_le_countOverlap needle hay 0

theorem countLoop_pos_iff (needle hay : List Char) (h : needle ≠ []) :
    0 < countLoop needle 0 hay ↔ pyIn needle hay = true := by
  induction hay with
  | nil =>
    cases needle with
    | nil => cases h rfl
    | cons c cs => simp [countLoop, pyIn, hasPrefixCh]
  | cons c t ih =>
    by_cases hp : hasPrefixCh needle (c :: t) = true
    · have : countLoop needle 0 (c :: t)
          = countLoop needle (needle.length - 1) t + 1 := by
        simp [countLoop, hp]
      simp [this, pyIn, hp]
    · have hp2 : hasPrefixCh needle (c :: t) = false := by simpa using hp
      have : countLoop needle 0 (c :: t) = countLoop needle 0 t := by
        simp [countLoop, hp2]
      simp [this, pyIn, hp2, ih]

theorem pyCount_pos_iff (hay needle : List Char) (h : needle ≠ []) :
    0 < pyCount hay needle ↔ pyIn needle hay = true := by
  have h2 : needle.isEmpty = false := by cases needle <;> simp_all
  simp only [pyCount, h2, Bool.false_eq_true, if_false]
  exact countLoop_pos_iff needle hay h

theorem containsAnyKw_iff_sumCountKw_pos (kws : List String) (hay : List Char)
    (h : ∀ k ∈ kws, (pyLower k).data ≠ []) :
    App2.containsAnyKw hay kws = true ↔ 0 < App2.sumCountKw hay kws := by
  induction kws with
  | nil => simp [App2.containsAnyKw, App2.sumCountKw]
  | cons k rest ih =>
    have hk : (pyLower k).data ≠ [] := h k (List.mem_cons_self k rest)
    have hrest : ∀ x ∈ rest, (pyLower x).data ≠ [] :=
      fun x hx => h x (List.mem_cons_of_mem k hx)
    simp only [App2.containsAnyKw, App2.sumCountKw, List.any_cons, List.map_cons,
      List.sum_cons, Bool.or_eq_true] at *
    rw [← pyCount_pos_iff hay (pyLower k).data hk, ih hrest]
    omega

theorem sum_map_double (f : String → Nat) (l : List String) :
    (l.map (fun k => f k + f k)).sum = 2 * (l.map f).sum := by
  induction l with
  | nil => rfl
  | cons x xs ih => simp [List.map_cons, List.sum_cons, ih]; omega

/-! Helper lemmas about the stable sort. -/

theorem filter_insB (le : α → α → Bool) (P : α → Bool)
    (h1 : ∀ a b, P a = true → P b = true → le a b = true) (x : α) (l : List α) :
    (insB le x l).filter P = if P x then x :: l.filter P else l.filter P := by
  induction l with
  | nil => cases hPx : P x <;> simp [insB, List.filter, hPx]
  | cons y ys ih =>
    by_cases hxy : le x y = true
    · simp only [insB, hxy, if_true]
      cases hPx : P x <;> cases hPy : P y <;>
        simp [List.filter_cons, hPx, hPy]
    · have hxy2 : le x y = false := by simpa using hxy
      simp only [insB, hxy2, Bool.false_eq_true, if_false]
      rw [List.filter_cons, List.filter_cons, ih]
      cases hPx : P x with
      | true =>
        have hPy : P y = false := by
          cases hPy : P y with
          | true => exact absurd (h1 x y hPx hPy) (by simp [hxy2])
          | false => rfl
        simp [hPx, hPy]
      | false => cases hPy : P y <;> simp [hPx, hPy]

theorem filter_sortB (le : α → α → Bool) (P : α → Bool)
    (h1 : ∀ a b, P a = true → P b = true → le a b = true) (l : List α) :
    (sortB le l).filter P = l.filter P := by
  induction l with
  | nil => rfl
  | cons x xs ih =>
    rw [show sortB le (x :: xs) = insB le x (sortB le xs) from rfl,
      filter_insB le P h1, ih, List.filter_cons]

/-! Helper lemmas about the record-building loops. -/

theorem build_loop_filter_uids (kws : List String) (result : List (String × Details)) :
    App1.build_loop kws (result.filter (fun p => !(p.1 == "uids")))
      = App1.build_loop kws result := by
  induction result with
  | nil => rfl
  | cons p rest ih =>
    obtain ⟨id, d⟩ := p
    cases h : id == "uids" <;>
      simp [List.filter_cons, h, App1.build_loop, ih]

theorem articles_from_result_filter_uids (result : List (String × Details)) :
    App2.articles_from_result (result.filter (fun p => !(p.1 == "uids")))
      = App2.articles_from_result result := by
  induction result with
  | nil => rfl
  | cons p rest ih =>
    obtain ⟨id, d⟩ := p
    simp only [App2.articles_from_result, beq_iff_eq] at ih ⊢
    by_cases h : id = "uids" <;>
      simp [List.filter_cons, List.filterMap_cons, h, ih]

theorem findModelType_eq_find (combined : List Char) (l : List String) :
    App2.findModelType combined l = l.find? (fun mt => pyIn mt.data combined) := by
  induction l with
  | nil => rfl
  | cons mt rest ih =>
    cases h : pyIn mt.data combined <;>
      simp [App2.findModelType, List.find?_cons, h, ih]

/-! Claim theorems. -/

/-- C1, counterexample.  The claim states that the count used by the scorer
equals the number of (possibly overlapping) substring positions, and that
counting "aa" in "aaa" yields 2.  On the article with title "aaa" and the
single keyword "aa" the scorer (Python `str.count`, non-overlapping) yields 1,
while there are 2 overlapping positions. -/
theorem C1_overlapping_count_counterexample :
    App1.calculate_relevance_score ⟨"aaa", "", "", "", "", ""⟩ ["aa"] = some 1
    ∧ countOverlap "aaa".data "aa".data = 2
    ∧ pyCount "aaa".data "aa".data ≠ 2 := by
  refine ⟨by decide, by decide, by decide⟩

/-- C1, amended.  The count used by the scorer is Python `str.count`:
non-overlapping occurrences scanned left to right.  It is at most the number
of (possibly overlapping) substring positions, and counting "aa" in "aaa"
yields 1 (the scorer gives the article ⟨"aaa", …⟩ the keyword score 1, not 2). -/
theorem C1_scorer_count_nonoverlapping :
    (∀ hay needle : List Char, pyCount hay needle ≤ countOverlap hay needle)
    ∧ pyCount "aaa".data "aa".data = 1
    ∧ App1.calculate_relevance_score ⟨"aaa", "", "", "", "", ""⟩ ["aa"] = some 1 := by
  refine ⟨pyCount_le_countOverlap, by decide, by decide⟩

set_option maxRecDepth 8000

/-- C2, counterexample.  The claim states that the query contains every
required term exactly once for every input; with the required term
"clearance", which also belongs to the selected pharmacometry keywords, the
built query contains "clearance" at two positions. -/
theorem C2_exactly_once_counterexample :
    countOverlap
      (App2.construct_query_with_keywords ["clearance"] App2.pharmacometry_keywords).data
      "clearance".data = 2 := by
  decide

/-- C2, amended.  Every required (user) term occurs in the built query at
least once: required terms are never dropped.  (A required term can occur more
than once when it is repeated or also occurs in the optional clause.) -/
theorem C2_required_terms_present (user pharma : List String) (k : String)
    (h : k ∈ user) :
    pyIn k.data (App2.construct_query_with_keywords user pharma).data = true := by
  show pyIn k.data
    ("(" ++ joinSep " AND " user ++ ") AND ("
      ++ joinSep " OR " (pharma.take (App2.fractionCount pharma.length 33)) ++ ")").data
      = true
  rw [sdata_append, sdata_append, sdata_append, sdata_append]
  exact pyIn_append_left _ _ _ (pyIn_append_left _ _ _ (pyIn_append_left _ _ _
    (pyIn_append_right _ _ _ (pyIn_joinSep " AND " user k h))))

/-- C2, witness for the amended theorem at a concrete input. -/
theorem C2_required_terms_present_witness :
    "a" ∈ ["a"]
    ∧ pyIn "a".data (App2.construct_query_with_keywords ["a"] []).data = true :=
  ⟨by decide, C2_required_terms_present ["a"] [] "a" (by decide)⟩

/-- C3: evaluation at the failing input.  The scorer of app.py has no handler
around `int(date.split(" ")[0])`: on the date "Non spécifié" — the default
that `fetch_article_details` itself supplies when the response has no
`pubdate` — the space check passes, `int("Non")` raises `ValueError` and the
exception propagates (`none`), contradicting the claim that a malformed date
fragment contributes zero.  Dates without a space and well-formed structured
dates behave as claimed. -/
theorem C3_recency_failing_input_eval :
    App1.calculate_relevance_score ⟨"t", "Non spécifié", "", "t", "", ""⟩ [] = none
    ∧ App1.calculate_relevance_score ⟨"t", "2010", "", "t", "", ""⟩ [] = some 0
    ∧ App1.calculate_relevance_score ⟨"t", "2023 Apr 01", "", "t", "", ""⟩ [] = some (-2) := by
  refine ⟨by decide, by decide, by decide⟩

/-- C4, counterexample.  In app.py `search_pubmed` a connectivity failure is
not caught: the call ends in an uncaught exception (modelled `.error`) instead
of reporting and returning an empty identifier list, refuting "never crashes"
for this variant. -/
theorem C4_never_crashes_counterexample :
    App1.search_pubmed (.connFail "connection refused")
      = .error (.connectionError "connection refused") := rfl

/-- C4, amended.  In the second variant (app2.py) a connectivity failure, a
bad HTTP status and a non-JSON body each produce a user-visible diagnostic and
the empty identifier list; in the first variant (app.py) the exception
propagates uncaught. -/
theorem C4_search_error_handling_amended :
    (∀ m, App2.search_pubmed (.connFail m) = .ok (.jarr [], [App2.reqErrMsg m]))
    ∧ (∀ b, App2.search_pubmed (.response false b)
        = .ok (.jarr [], [App2.reqErrMsg "HTTPError"]))
    ∧ App2.search_pubmed (.response true none) = .ok (.jarr [], [App2.jsonErrMsg])
    ∧ (∀ m, App1.search_pubmed (.connFail m) = .error (.connectionError m))
    ∧ App1.search_pubmed (.response true none) = .error .jsonDecodeError :=
  ⟨fun _ => rfl, fun _ => rfl, rfl, fun _ => rfl, rfl⟩

/-- C5: both sorts are stable.  For the descending single-key sort of app.py
and the two-key (flag ascending, score descending) sort of app2.py, the
subsequence of records whose sort key equals any fixed value is exactly the
same, in the same order, before and after sorting; records with equal keys
therefore keep their relative input order. -/
theorem C5_sort_stability :
    (∀ (l : List App1.Article) (s : Int),
        (sortB App1.le1 l).filter (fun a => a.score == s)
          = l.filter (fun a => a.score == s))
    ∧ (∀ (l : List App2.Article) (f s : Nat),
        (App2.sort_values l).filter (fun a => App2.flagPK a == f && a.score == s)
          = l.filter (fun a => App2.flagPK a == f && a.score == s)) := by
  constructor
  · intro l s
    apply filter_sortB
    intro a b ha hb
    have ha2 : a.score = s := by simpa using ha
    have hb2 : b.score = s := by simpa using hb
    simp [App1.le1, ha2, hb2]
  · intro l f s
    show (sortB App2.le2 l).filter _ = _
    apply filter_sortB
    intro a b ha hb
    simp only [Bool.and_eq_true, beq_iff_eq] at ha hb
    simp [App2.le2, ha.1, ha.2, hb.1, hb.2]

/-- C6: for a non-empty optional list and an inclusion percentage `p` between
1 and 100, the FRACTION(p) policy selects the first `ceil(len * p / 100)`
terms, at least one and never more than the ALL policy uses. -/
theorem C6_fraction_selection_bounds (optional_terms : List String) (p : Nat)
    (h0 : optional_terms ≠ []) (h1 : 1 ≤ p) (_h2 : p ≤ 100) :
    1 ≤ (selectFraction p optional_terms).length
    ∧ (selectFraction p optional_terms).length ≤ (selectAll optional_terms).length
    ∧ selectFraction p optional_terms
        = optional_terms.take (App2.fractionCount optional_terms.length p) := by
  have hn : 1 ≤ optional_terms.length := List.length_pos.mpr h0
  have hnp : 1 ≤ optional_terms.length * p := Nat.mul_pos hn h1
  have hk : 1 ≤ App2.fractionCount optional_terms.length p := by
    have : (100 : Nat) ≤ optional_terms.length * p + 99 := by omega
    exact (Nat.one_le_div_iff (by omega)).mpr this
  refine ⟨?_, ?_, rfl⟩
  · simp only [selectFraction, List.length_take]
    omega
  · simp only [selectFraction, selectAll, List.length_take]
    omega

/-- C6, witness at the concrete input used in the source (`p = 33`). -/
theorem C6_fraction_selection_bounds_witness :
    (["a"] : List String) ≠ [] ∧ 1 ≤ 33 ∧ 33 ≤ 100
    ∧ (1 ≤ (selectFraction 33 ["a"]).length
       ∧ (selectFraction 33 ["a"]).length ≤ (selectAll ["a"]).length
       ∧ selectFraction 33 ["a"] = (["a"] : List String).take (App2.fractionCount 1 33)) :=
  ⟨by decide, by decide, by decide,
    C6_fraction_selection_bounds ["a"] 33 (by decide) (by decide) (by decide)⟩

/-- C7: the classifier is a pure function (hence deterministic) that returns
the first specific phrase of the priority list occurring in the lowercased
combined text, the generic "Modèle PK" exactly when no specific phrase occurs
but "pk" does, and "Non spécifié" otherwise; in particular a text containing
both "bi-compartimental" and "pk" classifies as "bi-compartimental". -/
theorem C7_model_type_priority :
    (∀ title summary, App2.determine_model_type title summary
        = App2.modelTypeSpec title summary)
    ∧ App2.determine_model_type "bi-compartimental" "pk" = "bi-compartimental" := by
  constructor
  · intro title summary
    show (match App2.findModelType ((pyLower (title ++ " " ++ summary)).data)
        App2.model_types with
      | some mt => mt
      | none => if pyIn "pk".data ((pyLower (title ++ " " ++ summary)).data)
          then "Modèle PK" else "Non spécifié")
      = App2.modelTypeSpec title summary
    rw [findModelType_eq_find]
    unfold App2.modelTypeSpec
    cases hf : List.find? (fun mt => pyIn mt.data ((pyLower (title ++ " " ++ summary)).data))
        App2.model_types <;> simp [hf]
  · decide

/-- C8: in both variants the record set built by the detail-fetch loop is
unchanged when the `"uids"` entry of the response is removed first: the
`"uids"` key never contributes a record. -/
theorem C8_uids_always_skipped :
    (∀ (result : List (String × Details)) (kws : List String),
        App1.fetch_article_details result kws
          = App1.fetch_article_details (result.filter (fun p => !(p.1 == "uids"))) kws)
    ∧ (∀ result : List (String × Details),
        App2.articles_from_result result
          = App2.articles_from_result (result.filter (fun p => !(p.1 == "uids")))) := by
  constructor
  · intro result kws
    unfold App1.fetch_article_details
    rw [build_loop_filter_uids]
  · intro result
    rw [articles_from_result_filter_uids]

/-- C9: the boolean PK flag is the positivity of the PK keyword score — both
are computed from the same case-insensitive keyword list. -/
theorem C9_pk_flag_iff_positive_score (text : String) :
    App2.contains_pk_model text = true ↔ 0 < App2.model_keyword_score text := by
  exact containsAnyKw_iff_sumCountKw_pos App2.pk_model_keywords (pyLower text).data
    (by decide)

/-- C9, witness at a concrete input. -/
theorem C9_pk_flag_iff_positive_score_witness :
    App2.contains_pk_model "a pk study" = true
    ↔ 0 < App2.model_keyword_score "a pk study" :=
  C9_pk_flag_iff_positive_score "a pk study"

/-- C10: every record built by app.py fills the summary field with the title
field, so the keyword component of the relevance score is exactly twice the
sum over the query keywords of the non-overlapping occurrence counts in the
lowercased title. -/
theorem C10_summary_duplicates_title_double_count (id : String) (d : Details)
    (kws : List String) :
    (App1.preArticle id d).resume = (App1.preArticle id d).titre
    ∧ App1.keywordScore (pyLower (App1.preArticle id d).titre).data
        (pyLower (App1.preArticle id d).resume).data kws
      = 2 * (kws.map (fun k =>
          pyCount (pyLower (App1.preArticle id d).titre).data (pyLower k).data)).sum := by
  refine ⟨rfl, ?_⟩
  show App1.keywordScore (pyLower (App1.preArticle id d).titre).data
      (pyLower (App1.preArticle id d).titre).data kws = _
  unfold App1.keywordScore
  exact sum_map_double
    (fun k => pyCount (pyLower (App1.preArticle id d).titre).data (pyLower k).data) kws

